import Mathlib

set_option maxRecDepth 100000
set_option maxHeartbeats 2000000

/-!
Shallow embedding of `src/flask_app/prompt_optimizer.py`
(Cognition Structuring Engine v7.0) and verification of its
specification claims.

Machine strings are modelled by Lean `String`/`List Char`; the Python
regexes used by the code are restricted alternations of literal phrases
wrapped in word boundaries, which are embedded directly as scanning
functions over character lists.
-/

/-- The seven cognitive frameworks (`class Framework(Enum)`, lines 51-59). -/
inductive Framework where
  | CODING
  | TEACHING
  | EXPLANATION
  | RESEARCH
  | CREATIVE
  | STRATEGY
  | CONTENT
deriving DecidableEq, Repr

/-- Python `Framework.<member>.value` (the string payload of each enum member). -/
def Framework.value : Framework → String
  | .CODING => "coding_technical"
  | .TEACHING => "instruction_learning"
  | .EXPLANATION => "research_exploration"
  | .RESEARCH => "reasoning_problem_solving"
  | .CREATIVE => "creative_ideation"
  | .STRATEGY => "optimization_review"
  | .CONTENT => "writing_communication"

/-- Python `Framework.<member>.name` (the enum member identifier). -/
def Framework.pyName : Framework → String
  | .CODING => "CODING"
  | .TEACHING => "TEACHING"
  | .EXPLANATION => "EXPLANATION"
  | .RESEARCH => "RESEARCH"
  | .CREATIVE => "CREATIVE"
  | .STRATEGY => "STRATEGY"
  | .CONTENT => "CONTENT"

/-- Declaration order of the `Framework` enum, which is also the insertion
order of the registry dictionary (lines 227-338) and hence the iteration
order of `FrameworkRegistry.get_all()` and of `for fw in Framework`. -/
def frameworkOrder : List Framework :=
  [.CODING, .TEACHING, .EXPLANATION, .RESEARCH, .CREATIVE, .STRATEGY, .CONTENT]

/-- Position of a framework in declaration/registry order. -/
def regIndex : Framework → Nat
  | .CODING => 0
  | .TEACHING => 1
  | .EXPLANATION => 2
  | .RESEARCH => 3
  | .CREATIVE => 4
  | .STRATEGY => 5
  | .CONTENT => 6

/-- Embedding of `FORBIDDEN_WORDS` (lines 72-76). -/
def FORBIDDEN_WORDS : List String :=
  ["or", "maybe", "could", "might", "possibly",
   "either", "can be", "kind of", "sort of",
   "perhaps", "whatever", "something like"]

/-- Embedding of `MANDATORY_SECTIONS` (lines 79-87). -/
def MANDATORY_SECTIONS : List String :=
  ["ROLE", "PLATFORM", "OBJECTIVE", "SCOPE", "CONSTRAINTS", "EXECUTION",
   "OUTPUT CONTRACT"]

/-- Python `str.lower()` on the ASCII range: lowercase each character. -/
def pyLower (s : String) : String := String.mk (s.data.map Char.toLower)

/-- Python regex word character `\w`, restricted to the ASCII range that the
program's data exercises. -/
def isWordChar (c : Char) : Bool := c.isAlphanum || c = '_'

/-- When `t` starts with `w`, return the remainder of `t` after `w`. -/
def matchWord : List Char → List Char → Option (List Char)
  | [], t => some t
  | _ :: _, [] => none
  | p :: ps, c :: cs => if c = p then matchWord ps cs else none

/-- Python substring test `w in t`. -/
def substringHit (w : List Char) : List Char → Bool
  | [] => (matchWord w []).isSome
  | c :: rest => (matchWord w (c :: rest)).isSome || substringHit w rest

/-- Boundary test for the character preceding a match position (`none` is the
start of the string). All forbidden words begin with a word character, so the
leading `\b` holds exactly when the preceding character is absent or non-word. -/
def nonWordOpt : Option Char → Bool
  | none => true
  | some c => ! isWordChar c

/-- Boundary test after a match: the trailing `\b` holds exactly when the
following character is absent or non-word (every scanned phrase ends in a
word character). -/
def headNonWord : List Char → Bool
  | [] => true
  | c :: _ => ! isWordChar c

/-- Whole-word match of `w` at the head of `t` (the trailing `\b` check). -/
def wordAtHead (w t : List Char) : Bool :=
  match matchWord w t with
  | some rem => headNonWord rem
  | none => false

/-- Python `re.search(rf"\b{re.escape(word)}\b", lowered) is not None`:
scan `t` left to right carrying the previous character for the leading
boundary check. -/
def wholeWordHit (w : List Char) : Option Char → List Char → Bool
  | _, [] => false
  | prev, c :: rest =>
    (nonWordOpt prev && wordAtHead w (c :: rest)) || wholeWordHit w (some c) rest

/-- Violation entries produced by `OutputValidator.validate`; the two Python
format strings `"Forbidden word detected: '<w>'"` and
`"Missing mandatory section: <s>"` are represented by the two constructors. -/
inductive Violation where
  | forbiddenWord (w : String)
  | missingSection (s : String)
deriving DecidableEq, Repr

/-- Embedding of `OutputValidator.validate` (lines 193-206): one forbidden-word violation
per forbidden word found as a case-insensitive whole-word match (in list
order), followed by one missing-section violation per mandatory section
absent from the raw text (in list order). -/
def validate (text : String) : List Violation :=
  let lowered := pyLower text
  (FORBIDDEN_WORDS.filter (fun w => wholeWordHit w.data none lowered.data)).map
      Violation.forbiddenWord
    ++ (MANDATORY_SECTIONS.filter (fun s => ! substringHit s.data text.data)).map
      Violation.missingSection

/-- Embedding of `FrameworkSpec` dataclass (lines 90-100). -/
structure FrameworkSpec where
  framework : Framework
  name : String
  description : String
  targets : List String
  enforcements : List String
  avoidances : List String
  triggers : List String
  ideal_for : List String
deriving DecidableEq, Repr

/-- Embedding of `FrameworkRegistry._build` / `FrameworkRegistry.get` (lines 214-338). -/
def getSpec : Framework → FrameworkSpec
  | .CODING =>
    { framework := .CODING
      name := "Coding & Development"
      description := "Architecture clarity, deterministic behavior, production-grade systems"
      targets := ["Senior Software Engineer", "Production-grade", "No prototypes"]
      enforcements := ["Single tech stack decided", "Modular architecture",
        "Explicit error handling", "Type safety enforced"]
      avoidances := ["Generic best practices", "Optional alternatives", "Prototype patterns"]
      triggers := ["code", "build", "implement", "function", "api", "debug", "fix",
        "create", "develop", "program", "script", "database", "backend", "frontend", "app"]
      ideal_for := ["Code generation", "System design", "Debugging", "API development"] }
  | .TEACHING =>
    { framework := .TEACHING
      name := "Teaching & Learning"
      description := "Progressive complexity, concept sequencing, retention-focused"
      targets := ["Expert Instructor", "Progressive complexity", "Retention-focused"]
      enforcements := ["Prerequisites stated first", "One concept per section",
        "Simple → Abstract progression", "Verification checkpoints"]
      avoidances := ["Information dumping", "Mixed difficulty", "Tangents"]
      triggers := ["teach", "learn", "how to", "tutorial", "guide", "understand",
        "beginner", "step by step", "explain how", "show me"]
      ideal_for := ["Tutorials", "Educational content", "Skill building", "Onboarding"] }
  | .EXPLANATION =>
    { framework := .EXPLANATION
      name := "Explanation"
      description := "High signal density, zero fluff, technically precise"
      targets := ["Domain Expert", "High signal density", "Zero fluff"]
      enforcements := ["Definition → Mechanism → Example → Limitation",
        "Every sentence adds information", "Explicit boundaries"]
      avoidances := ["Storytelling", "Metaphor overload", "Redundancy"]
      triggers := ["what is", "explain", "describe", "tell me about", "overview",
        "summary", "eli5", "difference between"]
      ideal_for := ["Concept explanations", "Technical documentation", "Knowledge transfer"] }
  | .RESEARCH =>
    { framework := .RESEARCH
      name := "Research & Analysis"
      description := "Evidence-based, analytically rigorous, structured inquiry"
      targets := ["Research Analyst", "Evidence-based", "Analytically rigorous"]
      enforcements := ["Explicit research question", "Scope boundaries defined",
        "Assumptions declared", "Evidence-backed claims only"]
      avoidances := ["Opinions without evidence", "Broad wandering", "Speculation"]
      triggers := ["research", "analyze", "compare", "investigate", "study",
        "evaluate", "assess", "pros and cons", "tradeoffs"]
      ideal_for := ["Market research", "Technical analysis", "Decision support", "Due diligence"] }
  | .CREATIVE =>
    { framework := .CREATIVE
      name := "Creative & Design"
      description := "Constrained creativity, taste-controlled, visual coherence"
      targets := ["Creative Director", "Constrained creativity", "Taste-controlled"]
      enforcements := ["Visual direction rules explicit", "Style constraints with values",
        "Single mood anchor", "Boundaries defined"]
      avoidances := ["Unbounded creativity", "Vague aesthetics", "Multiple directions"]
      triggers := ["design", "creative", "brainstorm", "ideas", "story", "visual",
        "aesthetic", "style", "brand", "ui", "ux"]
      ideal_for := ["UI/UX design", "Creative writing", "Brand development", "Visual concepts"] }
  | .STRATEGY =>
    { framework := .STRATEGY
      name := "Strategy & Thinking"
      description := "First-principles reasoning, decision-grade clarity, single recommendation"
      targets := ["Strategic Advisor", "First-principles", "Decision-grade"]
      enforcements := ["Problem reframed from first principles", "Hard constraints identified",
        "Options with criteria", "Single recommendation"]
      avoidances := ["Motivational language", "Generic advice", "Hedging"]
      triggers := ["decide", "should i", "strategy", "plan", "approach", "solve",
        "problem", "optimize", "improve", "best way"]
      ideal_for := ["Strategic planning", "Decision making", "Problem solving",
        "Process optimization"] }
  | .CONTENT =>
    { framework := .CONTENT
      name := "Content Creation"
      description := "Audience-aligned, purpose-driven, structured communication"
      targets := ["Content Strategist", "Audience-aligned", "Purpose-driven"]
      enforcements := ["Audience explicitly defined", "Single intent locked",
        "Tone boundaries set", "Structure enforced"]
      avoidances := ["Viral bait", "Emotional padding", "Multiple drafts"]
      triggers := ["write", "draft", "email", "blog", "content", "article", "post",
        "message", "copy", "document"]
      ideal_for := ["Email writing", "Blog posts", "Documentation", "Marketing copy"] }

/-- Embedding of `DecisionEngine.decide_platform` (lines 352-360). -/
def decide_platform (text : String) : String :=
  let tl := (pyLower text).data
  if substringHit "mobile".data tl || substringHit "ios".data tl
      || substringHit "android".data tl then
    "Mobile Application"
  else if substringHit "api".data tl || substringHit "backend".data tl
      || substringHit "server".data tl then
    "Backend Service"
  else if substringHit "cli".data tl || substringHit "terminal".data tl
      || substringHit "command".data tl then
    "CLI Tool"
  else
    "Web Application"

/-- Embedding of `DecisionEngine.decide_goal` (lines 362-372). -/
def decide_goal : Framework → String
  | .CODING => "Build a production-grade system with deterministic behavior"
  | .TEACHING => "Teach concept progressively with verification checkpoints"
  | .EXPLANATION => "Explain with high signal density and zero fluff"
  | .RESEARCH => "Conduct structured analysis with evidence-backed findings"
  | .CREATIVE => "Design within explicit constraints and single direction"
  | .STRATEGY => "Produce single decision recommendation from first principles"
  | .CONTENT => "Create structured content for defined audience"

/-- Embedding of `DecisionEngine.decide_persona` (lines 374-376). -/
def decide_persona (fw : Framework) : String :=
  ((getSpec fw).targets).headD "Expert"

/-- Embedding of `DecisionEngine.decide_scope` (lines 378-410), returning (included, excluded). -/
def decide_scope : Framework → List String × List String
  | .CODING =>
    (["Core functionality", "Error handling", "Type safety"],
     ["Testing infrastructure", "Deployment configs", "CI/CD", "Documentation beyond inline"])
  | .TEACHING =>
    (["Core concept", "Prerequisites", "Practice exercises"],
     ["Advanced edge cases", "Alternative approaches", "Historical context"])
  | .EXPLANATION =>
    (["Definition", "Mechanism", "Example", "Limitations"],
     ["History", "Alternatives", "Opinions", "Comparisons"])
  | .RESEARCH =>
    (["Research question", "Methodology", "Findings", "Implications"],
     ["Recommendations beyond scope", "Speculative futures"])
  | .CREATIVE =>
    (["Visual system", "Component design", "Interaction rules"],
     ["Implementation code", "Backend logic", "Content strategy"])
  | .STRATEGY =>
    (["Problem reframe", "Options analysis", "Single recommendation"],
     ["Implementation details", "Timeline", "Resource allocation"])
  | .CONTENT =>
    (["Core message", "Structure", "Call-to-action"],
     ["Distribution strategy", "SEO", "Visual assets"])

/-- Embedding of `DecisionEngine.decide_constraints` (lines 412-458). -/
def decide_constraints : Framework → List String
  | .CODING =>
    ["Stack: React 18 + TypeScript (DECIDED)",
     "Architecture: Modular with single-responsibility",
     "Error handling: Explicit paths for all failures",
     "Types: Strict, no `any`, no implicit",
     "Functions: Maximum 40 lines, single purpose"]
  | .TEACHING =>
    ["Prerequisites: Stated before content",
     "Concept limit: One per section maximum",
     "Progression: Simple → Applied → Abstract (strict)",
     "Validation: Each section ends with checkpoint"]
  | .EXPLANATION =>
    ["Structure: Definition → Mechanism → Example → Limitation (mandatory)",
     "Density: Every sentence adds unique information",
     "Separation: Intuition vs implementation distinct",
     "Boundaries: State what does NOT apply"]
  | .RESEARCH =>
    ["Research question: Explicitly stated first",
     "Scope: Defined boundaries (in/out)",
     "Assumptions: Declared upfront",
     "Evidence: No claims without backing"]
  | .CREATIVE =>
    ["Colors: Max 5 in palette",
     "Typography: Single scale, max 3 weights",
     "Spacing: 4px/8px grid system",
     "Mood: Single anchor (Professional-minimal)"]
  | .STRATEGY =>
    ["Reframe: Problem restated from first principles",
     "Options: Exactly 3 distinct paths",
     "Criteria: Explicit decision factors with weights",
     "No: Motivational language, generic advice, hedging"]
  | .CONTENT =>
    ["Audience: Technical professionals (DECIDED)",
     "Intent: Inform (single purpose)",
     "Tone: Professional, direct, no contractions",
     "Length: 500-800 words"]

/-- Embedding of `DecisionEngine.decide_execution` (lines 460-510). -/
def decide_execution : Framework → List String
  | .CODING =>
    ["Define file structure and module boundaries",
     "Establish interfaces and type contracts",
     "Implement core logic with input validation",
     "Add error boundaries and edge cases",
     "Include usage example"]
  | .TEACHING =>
    ["State prerequisites and single learning outcome",
     "Introduce concept with minimal example",
     "Explain mechanism (not just syntax)",
     "Provide practice exercise with expected output",
     "Bridge to next concept"]
  | .EXPLANATION =>
    ["Precise definition (one sentence)",
     "How it works mechanistically",
     "Concrete example with context",
     "Limitations and edge cases"]
  | .RESEARCH =>
    ["Frame precise research question",
     "Define scope and methodology",
     "Analyze with structured approach",
     "Synthesize findings with evidence",
     "State implications and limitations"]
  | .CREATIVE =>
    ["Define visual constraints explicitly",
     "Establish style rules with values",
     "Design within boundaries",
     "Validate against mood anchor"]
  | .STRATEGY =>
    ["Reframe problem from first principles",
     "Identify hard constraints and variables",
     "Generate 3 distinct options",
     "Compare against weighted criteria",
     "Single recommendation with reasoning"]
  | .CONTENT =>
    ["Define audience context and needs",
     "Lock single content intent",
     "Structure for scannable consumption",
     "Apply consistent tone throughout",
     "End with clear call-to-action"]

/-- Embedding of `DecisionEngine.decide_output_contract` (lines 512-550). -/
def decide_output_contract : Framework → List String
  | .CODING =>
    ["Format: Complete, runnable TypeScript code",
     "Deliverables: All files with imports, no placeholders",
     "Boundaries: No test files, no deployment configs"]
  | .TEACHING =>
    ["Format: Numbered sections with headers",
     "Deliverables: Concept explanation, code example, exercise",
     "Boundaries: No tangents, no alternatives"]
  | .EXPLANATION =>
    ["Format: Four sections matching execution order",
     "Deliverables: Definition, mechanism, example, limitations",
     "Boundaries: No storytelling, no metaphors"]
  | .RESEARCH =>
    ["Format: Structured analysis with headers",
     "Deliverables: Question, methodology, findings, implications",
     "Boundaries: No opinions without evidence"]
  | .CREATIVE =>
    ["Format: Design specification with values",
     "Deliverables: Color codes, spacing, typography, components",
     "Boundaries: No alternatives, no mood boards"]
  | .STRATEGY =>
    ["Format: Structured analysis with decision matrix",
     "Deliverables: Reframed problem, 3 options, matrix, recommendation",
     "Boundaries: No hedging, no multiple recommendations"]
  | .CONTENT =>
    ["Format: Structured content with headers",
     "Deliverables: Complete draft, ready to publish",
     "Boundaries: No multiple drafts, no options"]

/-- Numbered lines `"{i+1}. {e}"` for the EXECUTION block (line 575). -/
def numberLines (xs : List String) : List String :=
  xs.enum.map (fun p => toString (p.1 + 1) ++ ". " ++ p.2)

/-- Embedding of `StructureAssembler.assemble` (lines 561-601): the f-string template. -/
def assemble (persona platform objective : String)
    (scope_in scope_out constraints execution output_contract : List String) : String :=
  let scope_in_str := String.intercalate "\n" (scope_in.map (fun s => "- " ++ s))
  let scope_out_str := String.intercalate "\n" (scope_out.map (fun s => "- " ++ s))
  let constraints_str := String.intercalate "\n" (constraints.map (fun c => "- " ++ c))
  let execution_str := String.intercalate "\n" (numberLines execution)
  let output_str := String.intercalate "\n" (output_contract.map (fun o => "- " ++ o))
  "ROLE\n" ++ persona ++ "\n\nPLATFORM\n" ++ platform ++ "\n\nOBJECTIVE\n" ++ objective
    ++ "\n\nSCOPE\nIncluded:\n" ++ scope_in_str ++ "\n\nExcluded:\n" ++ scope_out_str
    ++ "\n\nCONSTRAINTS\n" ++ constraints_str ++ "\n\nEXECUTION\n" ++ execution_str
    ++ "\n\nOUTPUT CONTRACT\n" ++ output_str

/-- Case-insensitive match of a lowercase phrase `w` at the head of `t`; on
success returns the last consumed character of `t` and the remainder. -/
def matchCI : List Char → List Char → Option (Char × List Char)
  | [], _ => none
  | [p], c :: cs => if c.toLower = p then some (c, cs) else none
  | p :: q :: ps, c :: cs => if c.toLower = p then matchCI (q :: ps) cs else none
  | _ :: _, [] => none

/-- Try each alternative phrase in order at the head of `t`, requiring the
trailing word boundary; the leading boundary is checked by the caller. -/
def findPhrase (phrases : List (List Char)) (t : List Char) : Option (Char × List Char) :=
  match phrases with
  | [] => none
  | w :: ws =>
    match matchCI w t with
    | some (lst, rem) => if headNonWord rem then some (lst, rem) else findPhrase ws t
    | none => findPhrase ws t

/-- Scan for `re.sub(pattern, '', text, flags=re.IGNORECASE)` where `pattern`
is a word-bounded alternation of literal lowercase phrases: characters of
matched spans are dropped, everything else is kept; `prev` carries the
character preceding the current position in the *input* string for the
leading `\b` test. Every step consumes at least one character, so the fuel
counter (started at the string length by `scrub`) never runs out; it only
makes the recursion structural. -/
def scrubAux (phrases : List (List Char)) : Nat → Option Char → List Char → List Char
  | _, _, [] => []
  | 0, _, t => t
  | fuel + 1, prev, c :: rest =>
    if nonWordOpt prev then
      match findPhrase phrases (c :: rest) with
      | some (lst, rem) => scrubAux phrases fuel (some lst) rem
      | none => c :: scrubAux phrases fuel (some c) rest
    else c :: scrubAux phrases fuel (some c) rest

/-- The three filler patterns of `_clean_input` (lines 697-701), as lists of
alternative phrases in alternation order. -/
def FILLER_PATTERNS : List (List String) :=
  [["please", "kindly", "could you", "can you", "i want to", "i need to",
    "i would like to"],
   ["maybe", "possibly", "perhaps", "something like", "sort of", "kind of"],
   ["basically", "actually", "honestly", "literally"]]

/-- One `re.sub(pattern, '', text, flags=re.IGNORECASE)` pass. -/
def scrub (phrases : List String) (t : String) : String :=
  String.mk (scrubAux (phrases.map String.data) t.data.length none t.data)

/-- Python ASCII whitespace, as recognized by `str.split()` and `str.strip()`. -/
def isPyWs (c : Char) : Bool :=
  c = ' ' || c = '\t' || c = '\n' || c = '\r' || c = '\x0b' || c = '\x0c'

/-- Python `str.split()` with no arguments: split on runs of whitespace and
drop empty fields. -/
def pySplitAux : List Char → List Char → List (List Char)
  | [], acc => if acc.isEmpty then [] else [acc.reverse]
  | c :: rest, acc =>
    if isPyWs c then
      if acc.isEmpty then pySplitAux rest []
      else acc.reverse :: pySplitAux rest []
    else pySplitAux rest (c :: acc)

/-- Python `' '.join(text.split())` (line 706); the final `.strip()` of
line 707 is the identity on this result, which has no outer whitespace. -/
def normalizeWs (t : String) : String :=
  String.intercalate " " ((pySplitAux t.data []).map String.mk)

/-- Embedding of `_clean_input` (lines 695-707, duplicated verbatim at 934-946 and
983-997): three sequential case-insensitive word-bounded `re.sub` deletion
passes, then whitespace normalization. -/
def clean_input (text : String) : String :=
  normalizeWs (FILLER_PATTERNS.foldl (fun acc pat => scrub pat acc) text)

/-- Embedding of `OptimizedPrompt` dataclass (lines 103-112); `confidence` is an exact
rational standing for the Python float. -/
structure OptimizedPrompt where
  framework : Framework
  framework_name : String
  prompt : String
  valid : Bool
  violations : List Violation
  confidence : ℚ
  generation_mode : String
deriving DecidableEq, Repr

/-- The structured prompt assembled by `StaticStructurer.structure`
(lines 658-680): all decisions are taken deterministically by the
`DecisionEngine` and the cleaned input lands on the OBJECTIVE line. -/
def static_prompt (user_input : String) (fw : Framework) : String :=
  assemble (decide_persona fw) (decide_platform user_input)
    (decide_goal fw ++ ": " ++ clean_input user_input)
    (decide_scope fw).1 (decide_scope fw).2
    (decide_constraints fw) (decide_execution fw) (decide_output_contract fw)

/-- Embedding of `StaticStructurer.structure` (lines 651-693). -/
def static_structure (user_input : String) (fw : Framework) : OptimizedPrompt :=
  { framework := fw
    framework_name := (getSpec fw).name
    prompt := static_prompt user_input fw
    valid := (validate (static_prompt user_input fw)).isEmpty
    violations := validate (static_prompt user_input fw)
    confidence := 1
    generation_mode := "static" }

/-- Per-framework raw score (line 621): the number of trigger keywords of the
framework occurring as substrings of the lowercased input. -/
def score (fw : Framework) (user_input : String) : Nat :=
  ((getSpec fw).triggers.filter
    (fun t => substringHit t.data (pyLower user_input).data)).length

/-- Python `max(iterable, key=...)` specialized to (value, score) pairs: the
first maximal element wins, as in CPython. -/
def argmaxFirst {α : Type} (p : α × Nat) : List (α × Nat) → α × Nat
  | [] => p
  | q :: rest => if q.2 > p.2 then argmaxFirst q rest else argmaxFirst p rest

/-- Embedding of `FrameworkClassifier.classify` (lines 615-631). The empty-scores guard of
line 624 is mirrored by the unreachable `[]` arm. -/
def classify (user_input : String) : Framework × ℚ × String :=
  let scores := frameworkOrder.map (fun fw => (fw, score fw user_input))
  if scores.all (fun p => p.2 == 0) then
    (Framework.CODING, 1/2, "Default classification")
  else
    match scores with
    | [] => (Framework.CODING, 1/2, "Default classification")
    | p :: rest =>
      let best := argmaxFirst p rest
      (best.1, min ((best.2 : ℚ) / 5) 1, "Classified as " ++ (getSpec best.1).name)

/-- Python `str.strip()` with no arguments, on the ASCII whitespace range. -/
def pyStrip (s : String) : String :=
  String.mk ((s.data.dropWhile isPyWs).reverse.dropWhile isPyWs).reverse

/-- The `keyword_map` dictionary of `_resolve_framework` (lines 1014-1029),
in insertion order. -/
def KEYWORD_MAP : List (String × Framework) :=
  [("coding", .CODING), ("code", .CODING), ("build", .CODING),
   ("teaching", .TEACHING), ("learn", .TEACHING),
   ("explain", .EXPLANATION),
   ("research", .RESEARCH), ("analyze", .RESEARCH),
   ("creative", .CREATIVE), ("design", .CREATIVE),
   ("strategy", .STRATEGY), ("decide", .STRATEGY),
   ("content", .CONTENT), ("write", .CONTENT)]

/-- Python `name.lower().strip()` — the normalization applied by
`_resolve_framework` before matching (line 1001). -/
def normName (name : String) : String := pyStrip (pyLower name)

/-- Embedding of `PromptOptimizer._resolve_framework` (lines 999-1035; the identical
earlier definition at lines 948-981 is shadowed in Python). -/
def resolve_framework (name : String) : Framework × ℚ :=
  match frameworkOrder.find? (fun fw =>
      fw.value == normName name || pyLower fw.pyName == normName name) with
  | some fw => (fw, 1)
  | none =>
    match frameworkOrder.find? (fun fw =>
        substringHit (normName name).data fw.value.data
          || substringHit (normName name).data (pyLower fw.pyName).data) with
    | some fw => (fw, 9/10)
    | none =>
      match KEYWORD_MAP.find? (fun kv =>
          substringHit kv.1.data (normName name).data) with
      | some kv => (kv.2, 4/5)
      | none => (Framework.CODING, 1/2)

/-- Abstraction of `LLMProvider`: `available` models `is_available`, and
`gen attempt feedback` models the text returned by `generate` on the given
attempt with the accumulated violation feedback. The system and user prompt
strings built by `_generate_with_llm` are functions of exactly these data
plus the fixed input and framework, so every concrete deterministic provider
factors through this interface; `none` covers transport failures, non-200
responses and unavailability, exactly as `GroqProvider.generate` swallows
every exception into `None` (lines 145-182). -/
structure Provider where
  available : Bool
  gen : Nat → List Violation → Option String

/-- Observable behavior of `_generate_with_llm` (lines 833-889): `none`
without a provider call when the provider is unavailable (lines 843-845),
otherwise whatever the provider returns. -/
def generate_with_llm (p : Provider) (attempt : Nat) (feedback : List Violation) :
    Option String :=
  if p.available then p.gen attempt feedback else none

/-- Embedding of `PromptOptimizer.MAX_RETRIES` (line 729). -/
def MAX_RETRIES : Nat := 2

/-- The `for attempt in range(MAX_RETRIES + 1)` control loop of
`PromptOptimizer.optimize` (lines 779-831). `remaining` counts the loop
iterations still allowed, starting at `MAX_RETRIES + 1`, so `remaining = 0`
inside an iteration means `attempt == MAX_RETRIES`; the outer `remaining = 0`
base case is the post-loop safety net (lines 829-831). The second component
of the result counts actual provider generation calls. -/
def optimizeLoop (p : Provider) (user_input : String) (fw : Framework) (conf : ℚ) :
    Nat → List Violation → Nat → OptimizedPrompt × Nat
  | _, _, 0 => (static_structure user_input fw, 0)
  | attempt, history, remaining + 1 =>
    let calls : Nat := if p.available then 1 else 0
    match generate_with_llm p attempt history with
    | none =>
      if remaining = 0 then (static_structure user_input fw, calls)
      else
        let r := optimizeLoop p user_input fw conf (attempt + 1) history remaining
        (r.1, calls + r.2)
    | some generated =>
      let violations := validate generated
      if violations.isEmpty then
        ({ framework := fw
           framework_name := (getSpec fw).name
           prompt := generated
           valid := true
           violations := []
           confidence := conf
           generation_mode := "dynamic" }, calls)
      else if remaining = 0 then
        (static_structure user_input fw, calls)
      else
        let r := optimizeLoop p user_input fw conf (attempt + 1)
          (history ++ violations) remaining
        (r.1, calls + r.2)

/-- Framework selection step of `optimize` (lines 767-771). -/
def choose_framework (user_input : String) (explicit_framework : Option String) :
    Framework × ℚ :=
  match explicit_framework with
  | some name => resolve_framework name
  | none => ((classify user_input).1, (classify user_input).2.1)

/-- Embedding of `PromptOptimizer.optimize` (lines 745-831). The raised
`ValueError("Input cannot be empty")` is modelled as `Except.error`; the
paired `Nat` instruments the number of provider generation calls.
`cleaned_input` (line 765) feeds only the LLM prompt text, which is
abstracted inside `Provider.gen`. -/
def optimize (p : Provider) (user_input : String) (explicit_framework : Option String)
    (force_static : Bool) : Except String (OptimizedPrompt × Nat) :=
  if pyStrip user_input = "" then Except.error "Input cannot be empty"
  else
    let fc := choose_framework user_input explicit_framework
    if force_static then Except.ok (static_structure user_input fc.1, 0)
    else Except.ok (optimizeLoop p user_input fc.1 fc.2 0 [] (MAX_RETRIES + 1))

/-- The dictionary returned by `PromptOptimizationSystem.process`
(lines 1093-1107), with the nested framework dict flattened into
`framework_id`, `framework_name`, `framework_description`, `framework_role`. -/
structure ProcessResult where
  original_input : String
  optimized_prompt : String
  framework_id : String
  framework_name : String
  framework_description : String
  framework_role : String
  confidence : ℚ
  reasoning : String
  generation_mode : String
  valid : Bool
  violations : List Violation
deriving DecidableEq, Repr

/-- Embedding of `PromptOptimizationSystem.process` (lines 1059-1107). -/
def process (p : Provider) (user_input : String) (explicit_framework : Option String)
    (force_static : Bool) : Except String ProcessResult :=
  (optimize p user_input explicit_framework force_static).map (fun r =>
    let result := r.1
    let spec := getSpec result.framework
    { original_input := user_input
      optimized_prompt := result.prompt
      framework_id := result.framework.value
      framework_name := result.framework_name
      framework_description := spec.description
      framework_role := spec.targets.headD "Expert"
      confidence := result.confidence
      reasoning := "Classified as " ++ result.framework_name
      generation_mode := result.generation_mode
      valid := result.valid
      violations := result.violations })

/-- Python `Framework(framework_id)`: enum lookup by value. The `ValueError`
raised on an unknown id is modelled as `none`. -/
def frameworkOfId (framework_id : String) : Option Framework :=
  frameworkOrder.find? (fun fw => fw.value == framework_id)

/-- The detail dictionary built by `PromptOptimizationSystem.get_framework`
(lines 1132-1140). -/
structure FrameworkDetails where
  id : String
  name : String
  description : String
  ideal_for : List String
  trigger_keywords : List String
  example_inputs : List String
  role_personas : List String
deriving DecidableEq, Repr

/-- Embedding of `PromptOptimizationSystem.get_framework` (lines 1127-1142): the
`try/except (ValueError, KeyError)` around the lookup is modelled by
`Option`. -/
def get_framework (framework_id : String) : Option FrameworkDetails :=
  (frameworkOfId framework_id).map (fun fw =>
    let spec := getSpec fw
    { id := spec.framework.value
      name := spec.name
      description := spec.description
      ideal_for := spec.ideal_for
      trigger_keywords := spec.triggers
      example_inputs := spec.triggers.take 5
      role_personas := spec.targets })

/-- Specification-level substring occurrence. -/
def Occurs (w t : List Char) : Prop := ∃ pre post, t = pre ++ w ++ post

/-- Last element of a list, or a fallback for the empty list. -/
def lastOr (prev : Option Char) : List Char → Option Char
  | [] => prev
  | c :: cs => lastOr (some c) cs

/-- Specification-level whole-word occurrence: `w` appears surrounded by
absent or non-word characters, the semantics of the regex
`\b<phrase>\b` for a phrase beginning and ending in word characters. -/
def OccursWW (w t : List Char) : Prop :=
  ∃ pre post, t = pre ++ w ++ post
    ∧ nonWordOpt (lastOr none pre) = true ∧ headNonWord post = true

/-- Modelled from the spec claim C9, which counts "distinct whole-word
occurrences": the number of positions at which `w` occurs as a whole word. -/
def wwOccurrenceCount (w : List Char) : Option Char → List Char → Nat
  | _, [] => 0
  | prev, c :: rest =>
    (if nonWordOpt prev && wordAtHead w (c :: rest) then 1 else 0)
      + wwOccurrenceCount w (some c) rest

/-- A text containing every mandatory section and no forbidden word. -/
def validSample : String :=
  "ROLE\nPLATFORM\nOBJECTIVE\nSCOPE\nCONSTRAINTS\nEXECUTION\nOUTPUT CONTRACT"

/-- Exact match on the framework identifier (enum value) or enum name
(tier 1 of `_resolve_framework`). -/
def ExactNameMatch (fw : Framework) (n : String) : Prop :=
  fw.value = n ∨ pyLower fw.pyName = n

/-- Substring match of the given name inside the framework identifier or
enum name (tier 2 of `_resolve_framework`). -/
def PartialNameMatch (fw : Framework) (n : String) : Prop :=
  Occurs n.data fw.value.data ∨ Occurs n.data (pyLower fw.pyName).data

/-- The (framework, score) pair selected by `max(scores, key=scores.get)`
in `classify`, spelled out over the registry in declaration order. -/
def bestPair (ui : String) : Framework × Nat :=
  argmaxFirst (Framework.CODING, score Framework.CODING ui)
    [(Framework.TEACHING, score Framework.TEACHING ui),
     (Framework.EXPLANATION, score Framework.EXPLANATION ui),
     (Framework.RESEARCH, score Framework.RESEARCH ui),
     (Framework.CREATIVE, score Framework.CREATIVE ui),
     (Framework.STRATEGY, score Framework.STRATEGY ui),
     (Framework.CONTENT, score Framework.CONTENT ui)]

/-- Modelled from the spec: the claimed classifier confidence, the raw score
normalized by the framework's maximum possible score. This registry defines
no regex trigger patterns, so the pattern term is zero and the keyword
weight cancels: the claimed confidence reduces to
(matched triggers) / (total triggers). -/
def claimedNormalizedConfidence (fw : Framework) (user_input : String) : ℚ :=
  (score fw user_input : ℚ) / ((getSpec fw).triggers.length : ℚ)

theorem matchWord_iff : ∀ (w t rem : List Char), matchWord w t = some rem ↔ t = w ++ rem := by
  intro w
  induction w with
  | nil => intro t rem; simp [matchWord]
  | cons p ps ih =>
    intro t rem
    cases t with
    | nil => simp [matchWord]
    | cons c cs =>
      by_cases hc : c = p
      · subst hc
        simp only [matchWord, if_pos rfl, List.cons_append, List.cons.injEq, true_and]
        exact ih cs rem
      · simp [matchWord, hc, Ne.symm hc]

theorem substringHit_iff : ∀ (w t : List Char), substringHit w t = true ↔ Occurs w t := by
  intro w t
  induction t with
  | nil =>
    constructor
    · intro h
      cases w with
      | nil => exact ⟨[], [], rfl⟩
      | cons p ps => simp [substringHit, matchWord] at h
    · rintro ⟨pre, post, h⟩
      rcases pre with _ | ⟨d, pre2⟩ <;> rcases w with _ | ⟨p, ps⟩ <;>
        simp_all [substringHit, matchWord]
  | cons c rest ih =>
    simp only [substringHit, Bool.or_eq_true, Option.isSome_iff_exists]
    constructor
    · rintro (⟨rem, hrem⟩ | hrest)
      · exact ⟨[], rem, by simpa using (matchWord_iff w (c :: rest) rem).mp hrem⟩
      · obtain ⟨pre, post, h⟩ := ih.mp hrest
        exact ⟨c :: pre, post, by simp [h]⟩
    · rintro ⟨pre, post, h⟩
      cases pre with
      | nil =>
        exact Or.inl ⟨post, (matchWord_iff w (c :: rest) post).mpr (by simpa using h)⟩
      | cons d pre' =>
        simp only [List.cons_append, List.cons.injEq] at h
        exact Or.inr (ih.mpr ⟨pre', post, h.2⟩)

theorem occurs_append_left (w a b : List Char) (h : Occurs w a) : Occurs w (a ++ b) := by
  obtain ⟨pre, post, rfl⟩ := h
  exact ⟨pre, post ++ b, by simp⟩

theorem occurs_append_right (w a b : List Char) (h : Occurs w b) : Occurs w (a ++ b) := by
  obtain ⟨pre, post, rfl⟩ := h
  exact ⟨a ++ pre, post, by simp⟩

instance (w t : List Char) : Decidable (Occurs w t) :=
  decidable_of_iff (substringHit w t = true) (substringHit_iff w t)

instance (fw : Framework) (n : String) : Decidable (ExactNameMatch fw n) := by
  unfold ExactNameMatch; infer_instance

instance (fw : Framework) (n : String) : Decidable (PartialNameMatch fw n) := by
  unfold PartialNameMatch; infer_instance

theorem wordAtHead_iff (w t : List Char) :
    wordAtHead w t = true ↔ ∃ rem, t = w ++ rem ∧ headNonWord rem = true := by
  unfold wordAtHead
  cases hm : matchWord w t with
  | none =>
    constructor
    · intro h; cases h
    · rintro ⟨rem, hrem, _⟩
      rw [(matchWord_iff w t rem).mpr hrem] at hm
      cases hm
  | some rem =>
    constructor
    · intro h; exact ⟨rem, (matchWord_iff w t rem).mp hm, h⟩
    · rintro ⟨rem', hrem', hh⟩
      have : rem = rem' := by
        have := (matchWord_iff w t rem).mp hm
        rw [this] at hrem'
        exact List.append_cancel_left hrem'
      rw [this]; exact hh

theorem wholeWordHit_iff (w : List Char) (hw : w ≠ []) :
    ∀ (prev : Option Char) (t : List Char),
    wholeWordHit w prev t = true ↔
      ∃ pre post, t = pre ++ w ++ post
        ∧ nonWordOpt (lastOr prev pre) = true ∧ headNonWord post = true := by
  intro prev t
  induction t generalizing prev with
  | nil =>
    simp only [wholeWordHit]
    constructor
    · intro h; exact absurd h (by simp)
    · rintro ⟨pre, post, h, _, _⟩
      have hlen := congrArg List.length h
      simp only [List.length_nil, List.length_append] at hlen
      have hz : w.length = 0 := by omega
      exact absurd (List.length_eq_zero.mp hz) hw
  | cons c rest ih =>
    simp only [wholeWordHit, Bool.or_eq_true, Bool.and_eq_true]
    constructor
    · rintro (⟨hprev, hhead⟩ | htail)
      · obtain ⟨rem, hrem, hh⟩ := (wordAtHead_iff w (c :: rest)).mp hhead
        exact ⟨[], rem, by simpa using hrem, by simpa [lastOr] using hprev, hh⟩
      · obtain ⟨pre, post, heq, hb, he⟩ := (ih (some c)).mp htail
        exact ⟨c :: pre, post, by simp [heq], by simpa [lastOr] using hb, he⟩
    · rintro ⟨pre, post, heq, hb, he⟩
      cases pre with
      | nil =>
        refine Or.inl ⟨by simpa [lastOr] using hb, ?_⟩
        exact (wordAtHead_iff w (c :: rest)).mpr ⟨post, by simpa using heq, he⟩
      | cons d pre' =>
        simp only [List.cons_append, List.cons.injEq] at heq
        obtain ⟨rfl, heq'⟩ := heq
        exact Or.inr ((ih (some c)).mpr ⟨pre', post, heq', by simpa [lastOr] using hb, he⟩)

theorem wholeWordHit_none_iff {w t : List Char} (hw : w ≠ []) :
    wholeWordHit w none t = true ↔ OccursWW w t :=
  wholeWordHit_iff w hw none t

theorem not_occursWW_of_hit_false {w t : List Char} (hw : w ≠ [])
    (h : wholeWordHit w none t = false) : ¬ OccursWW w t := by
  intro hocc
  have := (wholeWordHit_none_iff hw).mpr hocc
  rw [this] at h
  exact absurd h (by simp)

theorem forbidden_words_ne_nil : ∀ w ∈ FORBIDDEN_WORDS, w.data ≠ [] := by decide

/-- C3: `OutputValidator.validate(T)` is empty iff T contains all seven
mandatory section headers and no forbidden word occurs as a case-insensitive
whole-word match; when non-empty, it lists all forbidden-word violations
first in forbidden-word-list order, then exactly one missing-section entry
per absent header in section-list order. Word-boundary matching: "coding"
yields no "could"/"or" violation, while "this or that" yields the "or"
violation. -/
theorem C3_validate_characterization :
    (∀ T : String,
      (validate T = [] ↔
        (∀ s ∈ MANDATORY_SECTIONS, Occurs s.data T.data)
          ∧ (∀ w ∈ FORBIDDEN_WORDS, ¬ OccursWW w.data (pyLower T).data))
      ∧ ∃ fs ms : List String,
          validate T = fs.map Violation.forbiddenWord ++ ms.map Violation.missingSection
          ∧ List.Sublist fs FORBIDDEN_WORDS
          ∧ List.Sublist ms MANDATORY_SECTIONS
          ∧ (∀ w, w ∈ fs ↔ w ∈ FORBIDDEN_WORDS ∧ OccursWW w.data (pyLower T).data)
          ∧ (∀ s, s ∈ ms ↔ s ∈ MANDATORY_SECTIONS ∧ ¬ Occurs s.data T.data)
          ∧ fs.Nodup ∧ ms.Nodup)
    ∧ Violation.forbiddenWord "could" ∉ validate "coding"
    ∧ Violation.forbiddenWord "or" ∉ validate "coding"
    ∧ Violation.forbiddenWord "or" ∈ validate "this or that" := by
  refine ⟨fun T => ⟨?_, ?_⟩, by decide, by decide, by decide⟩
  · simp only [validate, List.append_eq_nil, List.map_eq_nil, List.filter_eq_nil_iff]
    constructor
    · rintro ⟨h1, h2⟩
      refine ⟨fun s hs => ?_, fun w hw => ?_⟩
      · have h := h2 s hs
        simp only [Bool.not_eq_true, Bool.not_eq_false'] at h
        exact (substringHit_iff _ _).mp h
      · have h := h1 w hw
        simp only [Bool.not_eq_true] at h
        exact not_occursWW_of_hit_false (forbidden_words_ne_nil w hw) h
    · rintro ⟨hs, hf⟩
      refine ⟨fun w hw => ?_, fun s hsec => ?_⟩
      · simp only [Bool.not_eq_true]
        by_contra hne
        have hhit : wholeWordHit w.data none (pyLower T).data = true := by
          revert hne
          cases wholeWordHit w.data none (pyLower T).data <;> simp
        exact hf w hw ((wholeWordHit_none_iff (forbidden_words_ne_nil w hw)).mp hhit)
      · have h := hs s hsec
        simp [Bool.not_eq_true, (substringHit_iff _ _).mpr h]
  · refine ⟨(FORBIDDEN_WORDS.filter
        (fun w => wholeWordHit w.data none (pyLower T).data)),
      (MANDATORY_SECTIONS.filter (fun s => ! substringHit s.data T.data)),
      rfl, List.filter_sublist _, List.filter_sublist _, ?_, ?_, ?_, ?_⟩
    · intro w
      simp only [List.mem_filter]
      constructor
      · rintro ⟨hmem, hhit⟩
        exact ⟨hmem, (wholeWordHit_none_iff (forbidden_words_ne_nil w hmem)).mp hhit⟩
      · rintro ⟨hmem, hocc⟩
        exact ⟨hmem, (wholeWordHit_none_iff (forbidden_words_ne_nil w hmem)).mpr hocc⟩
    · intro s
      simp only [List.mem_filter, Bool.not_eq_true']
      constructor
      · rintro ⟨hmem, hhit⟩
        refine ⟨hmem, fun hocc => ?_⟩
        rw [(substringHit_iff _ _).mpr hocc] at hhit
        cases hhit
      · rintro ⟨hmem, hocc⟩
        refine ⟨hmem, ?_⟩
        cases hh : substringHit s.data T.data
        · rfl
        · exact absurd ((substringHit_iff _ _).mp hh) hocc
    · exact List.Sublist.nodup (List.filter_sublist _) (by decide)
    · exact List.Sublist.nodup (List.filter_sublist _) (by decide)

/-- Witness for C3 at a concrete text: a fully-sectioned, forbidden-word-free
text validates to the empty list. -/
theorem C3_witness :
    validate "ROLE\nPLATFORM\nOBJECTIVE\nSCOPE\nCONSTRAINTS\nEXECUTION\nOUTPUT CONTRACT"
      = [] := by
  have h := (C3_validate_characterization.1
    "ROLE\nPLATFORM\nOBJECTIVE\nSCOPE\nCONSTRAINTS\nEXECUTION\nOUTPUT CONTRACT").1
  refine h.mpr ⟨fun s hs => ?_, fun w hw => ?_⟩
  · fin_cases hs <;> decide
  · fin_cases hw <;> exact not_occursWW_of_hit_false (by decide) (by decide)

/-- C9 counterexample: "a or b or c" contains two distinct whole-word
occurrences of "or", yet `validate` reports exactly one violation for the
word, because the code uses `re.search`, which reports at most one match
per forbidden word. -/
theorem C9_counterexample :
    wwOccurrenceCount "or".data none (pyLower "a or b or c").data = 2
    ∧ (validate "a or b or c").count (Violation.forbiddenWord "or") = 1 := by decide

/-- C9 amended: each forbidden word with at least one case-insensitive
whole-word occurrence in the text contributes exactly one violation,
regardless of how many occurrences the text contains; words with no
occurrence contribute none. -/
theorem C9_one_violation_per_word (T : String) (w : String) (hw : w ∈ FORBIDDEN_WORDS) :
    (OccursWW w.data (pyLower T).data →
      (validate T).count (Violation.forbiddenWord w) = 1)
    ∧ (¬ OccursWW w.data (pyLower T).data →
      (validate T).count (Violation.forbiddenWord w) = 0) := by
  have hinj : Function.Injective Violation.forbiddenWord := by
    intro a b h; cases h; rfl
  have hmiss : ((MANDATORY_SECTIONS.filter
      (fun s => ! substringHit s.data T.data)).map Violation.missingSection).count
        (Violation.forbiddenWord w) = 0 := by
    rw [List.count_eq_zero]
    intro hmem
    obtain ⟨s, _, hs⟩ := List.mem_map.mp hmem
    cases hs
  constructor
  · intro hocc
    have hhit : wholeWordHit w.data none (pyLower T).data = true :=
      (wholeWordHit_none_iff (forbidden_words_ne_nil w hw)).mpr hocc
    simp only [validate, List.count_append, hmiss, Nat.add_zero]
    rw [List.count_map_of_injective _ _ hinj]
    have hcf : List.count w (List.filter
        (fun x => wholeWordHit x.data none (pyLower T).data) FORBIDDEN_WORDS)
          = List.count w FORBIDDEN_WORDS := List.count_filter hhit
    rw [hcf]
    exact List.count_eq_one_of_mem (by decide) hw
  · intro hocc
    have hhit : wholeWordHit w.data none (pyLower T).data = false := by
      cases hh : wholeWordHit w.data none (pyLower T).data
      · rfl
      · exact absurd ((wholeWordHit_none_iff (forbidden_words_ne_nil w hw)).mp hh) hocc
    simp only [validate, List.count_append, hmiss, Nat.add_zero]
    rw [List.count_map_of_injective _ _ hinj, List.count_eq_zero]
    intro hmem
    rw [List.mem_filter] at hmem
    exact absurd hmem.2 (by simp [hhit])

/-- Witness for C9 at a concrete text and word. -/
theorem C9_witness :
    (validate "x or y").count (Violation.forbiddenWord "or") = 1 := by
  refine (C9_one_violation_per_word "x or y" "or" (by decide)).1 ?_
  exact (wholeWordHit_none_iff (by decide)).mp (by decide)

/-- Unfolding equation for `static_structure`, stated once so that later
proofs can rewrite projections cheaply. -/
theorem static_structure_eq (ui : String) (fw : Framework) :
    static_structure ui fw = OptimizedPrompt.mk fw ((getSpec fw).name)
      (static_prompt ui fw) ((validate (static_prompt ui fw)).isEmpty)
      (validate (static_prompt ui fw)) 1 "static" := rfl

/-- Every assembled prompt contains all seven mandatory section headers,
whatever the variable parts are. -/
theorem assemble_sections (persona platform objective : String)
    (si so cs ex oc : List String) :
    ∀ s ∈ MANDATORY_SECTIONS,
      Occurs s.data (assemble persona platform objective si so cs ex oc).data := by
  intro s hs
  simp only [assemble, String.data_append, List.append_assoc]
  fin_cases hs
  · exact occurs_append_left _ _ _ ⟨[], "\n".data, by decide⟩
  · refine occurs_append_right _ _ _ (occurs_append_right _ _ _ ?_)
    exact occurs_append_left _ _ _ ⟨"\n\n".data, "\n".data, by decide⟩
  · iterate 4 refine occurs_append_right _ _ _ ?_
    exact occurs_append_left _ _ _ ⟨"\n\n".data, "\n".data, by decide⟩
  · iterate 6 refine occurs_append_right _ _ _ ?_
    exact occurs_append_left _ _ _ ⟨"\n\n".data, "\nIncluded:\n".data, by decide⟩
  · iterate 10 refine occurs_append_right _ _ _ ?_
    exact occurs_append_left _ _ _ ⟨"\n\n".data, "\n".data, by decide⟩
  · iterate 12 refine occurs_append_right _ _ _ ?_
    exact occurs_append_left _ _ _ ⟨"\n\n".data, "\n".data, by decide⟩
  · iterate 14 refine occurs_append_right _ _ _ ?_
    exact occurs_append_left _ _ _ ⟨"\n\n".data, "\n".data, by decide⟩

/-- C1 counterexample: for the non-empty input "cats or dogs" (which reaches
the OBJECTIVE line intact, since `_clean_input` does not remove "or"), the
static structurer returns `valid=False` with a forbidden-word violation. -/
theorem C1_counterexample :
    "cats or dogs" ≠ ""
    ∧ (static_structure "cats or dogs" Framework.CODING).valid = false
    ∧ (static_structure "cats or dogs" Framework.CODING).violations
        = [Violation.forbiddenWord "or"] := by
  refine ⟨by decide, by decide, by decide⟩

/-- C1 amended: for every framework and every input, `StaticStructurer
.structure` returns confidence 1.0 and generation mode "static", its output
always contains all seven mandatory sections (so every violation it can
report is a forbidden-word violation inherited from the input text), and
`valid=True` holds exactly when the violation list is empty — but not for
every non-empty input. -/
theorem C1_static_properties (ui : String) (fw : Framework) :
    (static_structure ui fw).confidence = 1
    ∧ (static_structure ui fw).generation_mode = "static"
    ∧ ((static_structure ui fw).valid = true ↔ (static_structure ui fw).violations = [])
    ∧ (∀ s ∈ MANDATORY_SECTIONS, Occurs s.data (static_structure ui fw).prompt.data)
    ∧ (∀ v ∈ (static_structure ui fw).violations, ∃ w, v = Violation.forbiddenWord w) := by
  simp only [static_structure_eq]
  refine ⟨trivial, trivial, List.isEmpty_iff, ?_, ?_⟩
  · intro s hs
    exact assemble_sections _ _ _ _ _ _ _ _ s hs
  · intro v hv
    have hmiss : MANDATORY_SECTIONS.filter
        (fun s => ! substringHit s.data (static_prompt ui fw).data) = [] := by
      rw [List.filter_eq_nil_iff]
      intro s hs
      have hocc : Occurs s.data (static_prompt ui fw).data :=
        assemble_sections _ _ _ _ _ _ _ _ s hs
      have hhit := (substringHit_iff _ _).mpr hocc
      simp [hhit]
    unfold validate at hv
    rw [hmiss] at hv
    simp only [List.map_nil, List.append_nil] at hv
    obtain ⟨w, _, rfl⟩ := List.mem_map.mp hv
    exact ⟨w, rfl⟩

/-- Witness for C1 at a concrete input and framework. -/
theorem C1_witness :
    (static_structure "build a login page" Framework.CODING).confidence = 1
    ∧ Occurs "ROLE".data (static_structure "build a login page" Framework.CODING).prompt.data := by
  refine ⟨(C1_static_properties "build a login page" Framework.CODING).1, ?_⟩
  exact (C1_static_properties "build a login page" Framework.CODING).2.2.2.1
    "ROLE" (by decide)

/-- When every provider generation fails validation (or produces no text),
the control loop always lands in the static fallback, making at most
`remaining` generation calls. -/
theorem optimizeLoop_all_invalid (p : Provider) (ui : String) (fw : Framework) (conf : ℚ)
    (hgen : ∀ n h s, p.gen n h = some s → validate s ≠ []) :
    ∀ (remaining attempt : Nat) (history : List Violation),
      (optimizeLoop p ui fw conf attempt history remaining).1 = static_structure ui fw
      ∧ (optimizeLoop p ui fw conf attempt history remaining).2 ≤ remaining := by
  intro remaining
  induction remaining with
  | zero => intro attempt history; exact ⟨rfl, Nat.le_refl 0⟩
  | succ rem ih =>
    intro attempt history
    have hcalls : (if p.available then 1 else 0) ≤ 1 := by
      cases p.available <;> simp
    cases hg : generate_with_llm p attempt history with
    | none =>
      by_cases hrem : rem = 0
      · subst hrem
        simp only [optimizeLoop, hg]
        exact ⟨rfl, by simpa using hcalls⟩
      · have hr := ih (attempt + 1) history
        simp only [optimizeLoop, hg, if_neg hrem]
        exact ⟨hr.1, by omega⟩
    | some g =>
      have hgg : p.gen attempt history = some g := by
        unfold generate_with_llm at hg
        cases hav : p.available
        · rw [hav] at hg; cases hg
        · rw [hav] at hg; exact hg
      have hval : ¬ (validate g).isEmpty = true := by
        rw [List.isEmpty_iff]
        exact hgen attempt history g hgg
      by_cases hrem : rem = 0
      · subst hrem
        simp only [optimizeLoop, hg, if_neg hval]
        exact ⟨rfl, by simpa using hcalls⟩
      · have hr := ih (attempt + 1) (history ++ validate g)
        simp only [optimizeLoop, hg, if_neg hval, if_neg hrem]
        exact ⟨hr.1, by omega⟩

/-- C2: with a provider whose every generated text fails validation (or that
returns no text), `optimize` terminates with the StaticStructurer result for
the chosen framework on the original input, in `generation_mode="static"`,
after at most MAX_RETRIES+1 = 3 generation calls. -/
theorem C2_retry_bound (avail : Bool) (gen : Nat → List Violation → Option String)
    (ui : String) (efw : Option String)
    (hgen : ∀ n h s, gen n h = some s → validate s ≠ [])
    (hne : pyStrip ui ≠ "") :
    (optimize ⟨avail, gen⟩ ui efw false).map Prod.fst
        = Except.ok (static_structure ui (choose_framework ui efw).1)
    ∧ (∀ r, optimize ⟨avail, gen⟩ ui efw false = Except.ok r → r.2 ≤ MAX_RETRIES + 1)
    ∧ (static_structure ui (choose_framework ui efw).1).generation_mode = "static" := by
  have hloop := optimizeLoop_all_invalid ⟨avail, gen⟩ ui (choose_framework ui efw).1
    (choose_framework ui efw).2 hgen (MAX_RETRIES + 1) 0 []
  have hopt : optimize ⟨avail, gen⟩ ui efw false
      = Except.ok (optimizeLoop ⟨avail, gen⟩ ui (choose_framework ui efw).1
          (choose_framework ui efw).2 0 [] (MAX_RETRIES + 1)) := by
    unfold optimize
    rw [if_neg hne]
    exact rfl
  refine ⟨?_, ?_, rfl⟩
  · rw [hopt]
    simp only [Except.map]
    rw [hloop.1]
  · intro r hr
    rw [hopt] at hr
    cases hr
    exact hloop.2

/-- Witness for C2 with an unavailable provider on a concrete input. -/
theorem C2_witness :
    (optimize ⟨false, fun _ _ => none⟩ "build an app" none false).map Prod.fst
      = Except.ok (static_structure "build an app" Framework.CODING)
    ∧ (static_structure "build an app" Framework.CODING,
        (0 : Nat)).2 ≤ MAX_RETRIES + 1 := by
  have h := C2_retry_bound false (fun _ _ => none) "build an app" none
    (fun n hist s hs => by simp at hs) (by decide)
  constructor
  · rw [h.1]
    exact rfl
  · exact h.2.1 (static_structure "build an app" Framework.CODING, 0) rfl

/-- Python `s.strip()` is empty exactly when every character of `s` is
whitespace (in particular when `s` is empty). -/
theorem pyStrip_eq_empty_iff (s : String) :
    pyStrip s = "" ↔ s.data.all isPyWs = true := by
  have hmem : (∀ x ∈ s.data.dropWhile isPyWs, isPyWs x = true)
      ↔ ∀ x ∈ s.data, isPyWs x = true := by
    constructor
    · intro h x hx
      have hsplit := List.takeWhile_append_dropWhile (p := isPyWs) (l := s.data)
      rw [← hsplit] at hx
      rcases List.mem_append.mp hx with h1 | h2
      · exact List.mem_takeWhile_imp h1
      · exact h x h2
    · intro h x hx
      exact h x ((List.dropWhile_sublist isPyWs).subset hx)
  rw [String.ext_iff]
  show ((s.data.dropWhile isPyWs).reverse.dropWhile isPyWs).reverse = "".data ↔ _
  rw [show ("".data : List Char) = [] from rfl, List.reverse_eq_nil_iff,
    List.dropWhile_eq_nil_iff, List.all_eq_true]
  constructor
  · intro h
    exact hmem.mp (fun x hx => h x (List.mem_reverse.mpr hx))
  · intro h x hx
    exact hmem.mpr h x (List.mem_reverse.mp hx)

/-- C4: `optimize` fails with the input error exactly when the input is
empty or whitespace-only; for any other input it returns an
`OptimizedPrompt`, whatever the provider does (provider failures are
`none` results, never exceptions). -/
theorem C4_error_iff (p : Provider) (ui : String) (efw : Option String) (fs : Bool) :
    (optimize p ui efw fs = Except.error "Input cannot be empty"
      ↔ ui.data.all isPyWs = true)
    ∧ (ui.data.all isPyWs = false → (optimize p ui efw fs).isOk = true) := by
  constructor
  · constructor
    · intro h
      by_contra hws
      have hne : pyStrip ui ≠ "" := fun he => hws ((pyStrip_eq_empty_iff ui).mp he)
      unfold optimize at h
      rw [if_neg hne] at h
      cases fs <;> simp at h
    · intro h
      have he : pyStrip ui = "" := (pyStrip_eq_empty_iff ui).mpr h
      unfold optimize
      rw [if_pos he]
  · intro h
    have hne : pyStrip ui ≠ "" := fun he => by
      have := (pyStrip_eq_empty_iff ui).mp he
      rw [this] at h
      cases h
    unfold optimize
    rw [if_neg hne]
    cases fs <;> rfl

/-- Witness for C4: whitespace input errors, plain input succeeds. -/
theorem C4_witness :
    (optimize ⟨false, fun _ _ => none⟩ "   " none false
      = Except.error "Input cannot be empty")
    ∧ (optimize ⟨false, fun _ _ => none⟩ "abc" none false).isOk = true := by
  constructor
  · exact (C4_error_iff ⟨false, fun _ _ => none⟩ "   " none false).1.mpr (by decide)
  · exact (C4_error_iff ⟨false, fun _ _ => none⟩ "abc" none false).2 (by decide)

/-- C5: if the provider returns text that passes validation on the very
first attempt, `optimize` returns after exactly one generation call a
dynamic-mode result carrying the framework-resolution confidence. -/
theorem C5_first_success (gen : Nat → List Violation → Option String)
    (ui : String) (efw : Option String) (g : String)
    (h1 : gen 0 [] = some g) (h2 : validate g = []) (h3 : pyStrip ui ≠ "") :
    optimize ⟨true, gen⟩ ui efw false
      = Except.ok ({ framework := (choose_framework ui efw).1
                     framework_name := (getSpec (choose_framework ui efw).1).name
                     prompt := g
                     valid := true
                     violations := []
                     confidence := (choose_framework ui efw).2
                     generation_mode := "dynamic" }, 1) := by
  have hopt : optimize ⟨true, gen⟩ ui efw false
      = Except.ok (optimizeLoop ⟨true, gen⟩ ui (choose_framework ui efw).1
          (choose_framework ui efw).2 0 [] (MAX_RETRIES + 1)) := by
    unfold optimize
    rw [if_neg h3]
    exact rfl
  rw [hopt]
  have hg : generate_with_llm ⟨true, gen⟩ 0 [] = some g := by
    unfold generate_with_llm
    exact h1
  show Except.ok (optimizeLoop ⟨true, gen⟩ ui (choose_framework ui efw).1
      (choose_framework ui efw).2 0 [] (2 + 1)) = _
  simp only [optimizeLoop, hg, h2]
  exact rfl

/-- Witness for C5 with a constant provider and an explicit framework. -/
theorem C5_witness :
    optimize ⟨true, fun _ _ => some validSample⟩ "build an app"
        (some "coding_technical") false
      = Except.ok ({ framework := Framework.CODING
                     framework_name := "Coding & Development"
                     prompt := validSample
                     valid := true
                     violations := []
                     confidence := 1
                     generation_mode := "dynamic" }, 1) := by
  have h := C5_first_success (fun _ _ => some validSample) "build an app"
    (some "coding_technical") validSample rfl (by decide) (by decide)
  rw [h]
  exact rfl

theorem mem_frameworkOrder : ∀ fw : Framework, fw ∈ frameworkOrder := by
  intro fw; cases fw <;> decide

theorem find?_some_pred {α : Type} (p : α → Bool) (l : List α) (a : α)
    (h : l.find? p = some a) : p a = true := List.find?_some h

theorem exact_pred_iff (fw : Framework) (n : String) :
    (fw.value == n || pyLower fw.pyName == n) = true ↔ ExactNameMatch fw n := by
  simp [ExactNameMatch]

theorem substr_pred_iff (fw : Framework) (n : String) :
    (substringHit n.data fw.value.data
      || substringHit n.data (pyLower fw.pyName).data) = true
      ↔ PartialNameMatch fw n := by
  simp [PartialNameMatch, substringHit_iff]

/-- C6 counterexample: a name that resolves to no framework falls back to
the coding framework at confidence 0.5, but the reasoning surfaced by
`process` is just "Classified as <framework name>" — it never mentions the
unresolved name. -/
theorem C6_counterexample :
    resolve_framework "zzzz" = (Framework.CODING, 1/2)
    ∧ (process ⟨false, fun _ _ => none⟩ "make a thing" (some "zzzz") false).map
        ProcessResult.reasoning = Except.ok "Classified as Coding & Development"
    ∧ substringHit "zzzz".data "Classified as Coding & Development".data = false := by
  refine ⟨rfl, rfl, by decide⟩

/-- C6 amended: explicit-framework resolution tries exact identifier/name
match (confidence 1.0), then substring match (0.9), then keyword-map lookup
(0.8), else defaults to the coding framework at 0.5 (the reasoning string,
however, does not mention the unresolved name); in particular
`explicit_framework="coding_technical"` always resolves to the coding
framework at confidence 1.0. -/
theorem C6_resolution_tiers :
    (∀ text : String,
      choose_framework text (some "coding_technical") = (Framework.CODING, 1))
    ∧ ∀ name : String,
      ((∃ fw, ExactNameMatch fw (normName name)) →
        (resolve_framework name).2 = 1
          ∧ ExactNameMatch (resolve_framework name).1 (normName name))
      ∧ ((¬ ∃ fw, ExactNameMatch fw (normName name)) →
         (∃ fw, PartialNameMatch fw (normName name)) →
        (resolve_framework name).2 = 9/10
          ∧ PartialNameMatch (resolve_framework name).1 (normName name))
      ∧ ((¬ ∃ fw, ExactNameMatch fw (normName name)) →
         (¬ ∃ fw, PartialNameMatch fw (normName name)) →
         (∃ kv, kv ∈ KEYWORD_MAP ∧ Occurs kv.1.data (normName name).data) →
        (resolve_framework name).2 = 4/5
          ∧ ∃ kv, kv ∈ KEYWORD_MAP ∧ Occurs kv.1.data (normName name).data
              ∧ (resolve_framework name).1 = kv.2)
      ∧ ((¬ ∃ fw, ExactNameMatch fw (normName name)) →
         (¬ ∃ fw, PartialNameMatch fw (normName name)) →
         (¬ ∃ kv, kv ∈ KEYWORD_MAP ∧ Occurs kv.1.data (normName name).data) →
        resolve_framework name = (Framework.CODING, 1/2)) := by
  constructor
  · intro text
    exact rfl
  intro name
  refine ⟨?_, ?_, ?_, ?_⟩
  · rintro ⟨fw0, hfw0⟩
    have hsome : (frameworkOrder.find? (fun fw =>
        fw.value == normName name || pyLower fw.pyName == normName name)).isSome := by
      rw [List.find?_isSome]
      exact ⟨fw0, mem_frameworkOrder fw0, (exact_pred_iff fw0 _).mpr hfw0⟩
    obtain ⟨fwr, hfind⟩ := Option.isSome_iff_exists.mp hsome
    have hres : resolve_framework name = (fwr, 1) := by
      unfold resolve_framework
      rw [hfind]
    have hp := find?_some_pred _ _ _ hfind
    rw [hres]
    exact ⟨rfl, (exact_pred_iff fwr _).mp hp⟩
  · intro hno hpart
    have hnone : frameworkOrder.find? (fun fw =>
        fw.value == normName name || pyLower fw.pyName == normName name) = none := by
      rw [List.find?_eq_none]
      intro fw _ hpred
      exact hno ⟨fw, (exact_pred_iff fw _).mp hpred⟩
    obtain ⟨fw0, hfw0⟩ := hpart
    have hsome : (frameworkOrder.find? (fun fw =>
        substringHit (normName name).data fw.value.data
          || substringHit (normName name).data (pyLower fw.pyName).data)).isSome := by
      rw [List.find?_isSome]
      exact ⟨fw0, mem_frameworkOrder fw0, (substr_pred_iff fw0 _).mpr hfw0⟩
    obtain ⟨fwr, hfind⟩ := Option.isSome_iff_exists.mp hsome
    have hres : resolve_framework name = (fwr, 9/10) := by
      unfold resolve_framework
      rw [hnone, hfind]
    have hp := find?_some_pred _ _ _ hfind
    rw [hres]
    exact ⟨rfl, (substr_pred_iff fwr _).mp hp⟩
  · intro hno1 hno2 hkw
    have hnone1 : frameworkOrder.find? (fun fw =>
        fw.value == normName name || pyLower fw.pyName == normName name) = none := by
      rw [List.find?_eq_none]
      intro fw _ hpred
      exact hno1 ⟨fw, (exact_pred_iff fw _).mp hpred⟩
    have hnone2 : frameworkOrder.find? (fun fw =>
        substringHit (normName name).data fw.value.data
          || substringHit (normName name).data (pyLower fw.pyName).data) = none := by
      rw [List.find?_eq_none]
      intro fw _ hpred
      exact hno2 ⟨fw, (substr_pred_iff fw _).mp hpred⟩
    obtain ⟨kv0, hkv0, hocc0⟩ := hkw
    have hsome : (KEYWORD_MAP.find? (fun kv =>
        substringHit kv.1.data (normName name).data)).isSome := by
      rw [List.find?_isSome]
      exact ⟨kv0, hkv0, (substringHit_iff _ _).mpr hocc0⟩
    obtain ⟨kvr, hfind⟩ := Option.isSome_iff_exists.mp hsome
    have hres : resolve_framework name = (kvr.2, 4/5) := by
      unfold resolve_framework
      rw [hnone1, hnone2, hfind]
    have hp := find?_some_pred _ _ _ hfind
    rw [hres]
    refine ⟨rfl, kvr, List.mem_of_find?_eq_some hfind,
      (substringHit_iff _ _).mp hp, rfl⟩
  · intro hno1 hno2 hno3
    have hnone1 : frameworkOrder.find? (fun fw =>
        fw.value == normName name || pyLower fw.pyName == normName name) = none := by
      rw [List.find?_eq_none]
      intro fw _ hpred
      exact hno1 ⟨fw, (exact_pred_iff fw _).mp hpred⟩
    have hnone2 : frameworkOrder.find? (fun fw =>
        substringHit (normName name).data fw.value.data
          || substringHit (normName name).data (pyLower fw.pyName).data) = none := by
      rw [List.find?_eq_none]
      intro fw _ hpred
      exact hno2 ⟨fw, (substr_pred_iff fw _).mp hpred⟩
    have hnone3 : KEYWORD_MAP.find? (fun kv =>
        substringHit kv.1.data (normName name).data) = none := by
      rw [List.find?_eq_none]
      intro kv hmem hpred
      exact hno3 ⟨kv, hmem, (substringHit_iff _ _).mp hpred⟩
    unfold resolve_framework
    rw [hnone1, hnone2, hnone3]

/-- Witness for C6: "CODING" exact-matches the enum member name at
confidence 1.0, and the explicit id resolves to the coding framework. -/
theorem C6_witness :
    (resolve_framework "CODING").2 = 1
    ∧ choose_framework "anything" (some "coding_technical") = (Framework.CODING, 1) := by
  refine ⟨?_, C6_resolution_tiers.1 "anything"⟩
  exact ((C6_resolution_tiers.2 "CODING").1 ⟨Framework.CODING, Or.inr (by decide)⟩).1

theorem argmaxFirst_mem {α : Type} : ∀ (l : List (α × Nat)) (p : α × Nat),
    argmaxFirst p l ∈ p :: l := by
  intro l
  induction l with
  | nil => intro p; simp [argmaxFirst]
  | cons q rest ih =>
    intro p
    simp only [argmaxFirst]
    by_cases h : q.2 > p.2
    · rw [if_pos h]
      exact List.mem_cons_of_mem p (ih q)
    · rw [if_neg h]
      rcases List.mem_cons.mp (ih p) with h1 | h1
      · rw [h1]; exact List.mem_cons_self _ _
      · exact List.mem_cons_of_mem p (List.mem_cons_of_mem q h1)

theorem argmaxFirst_ge {α : Type} : ∀ (l : List (α × Nat)) (p : α × Nat),
    ∀ q ∈ p :: l, q.2 ≤ (argmaxFirst p l).2 := by
  intro l
  induction l with
  | nil =>
    intro p q hq
    rcases List.mem_cons.mp hq with h1 | h1
    · rw [h1]; simp [argmaxFirst]
    · cases h1
  | cons r rest ih =>
    intro p q hq
    simp only [argmaxFirst]
    by_cases h : r.2 > p.2
    · rw [if_pos h]
      rcases List.mem_cons.mp hq with h1 | h1
      · have hr : r.2 ≤ (argmaxFirst r rest).2 := ih r r (List.mem_cons_self _ _)
        rw [h1]; omega
      · exact ih r q h1
    · rw [if_neg h]
      rcases List.mem_cons.mp hq with h1 | h1
      · rw [h1]; exact ih p p (List.mem_cons_self _ _)
      · rcases List.mem_cons.mp h1 with h2 | h2
        · have hp : p.2 ≤ (argmaxFirst p rest).2 := ih p p (List.mem_cons_self _ _)
          rw [h2]; omega
        · exact ih p q (List.mem_cons_of_mem p h2)

theorem argmaxFirst_first {α : Type} : ∀ (l : List (α × Nat)) (p : α × Nat),
    ∃ i, (p :: l).get? i = some (argmaxFirst p l)
      ∧ ∀ j q, j < i → (p :: l).get? j = some q → q.2 < (argmaxFirst p l).2 := by
  intro l
  induction l with
  | nil =>
    intro p
    refine ⟨0, rfl, ?_⟩
    intro j q hj _
    omega
  | cons r rest ih =>
    intro p
    simp only [argmaxFirst]
    by_cases h : r.2 > p.2
    · rw [if_pos h]
      obtain ⟨i, hi, hlt⟩ := ih r
      refine ⟨i + 1, hi, ?_⟩
      intro j q hj hq
      cases j with
      | zero =>
        cases hq
        have hr : r.2 ≤ (argmaxFirst r rest).2 :=
          argmaxFirst_ge rest r r (List.mem_cons_self _ _)
        omega
      | succ j2 =>
        exact hlt j2 q (by omega) hq
    · rw [if_neg h]
      obtain ⟨i, hi, hlt⟩ := ih p
      cases i with
      | zero =>
        refine ⟨0, hi, ?_⟩
        intro j q hj _
        omega
      | succ i2 =>
        refine ⟨i2 + 2, hi, ?_⟩
        intro j q hj hq
        cases j with
        | zero =>
          cases hq
          exact hlt 0 p (by omega) rfl
        | succ j2 =>
          cases j2 with
          | zero =>
            cases hq
            have hp2 : p.2 < (argmaxFirst p rest).2 := hlt 0 p (by omega) rfl
            omega
          | succ j3 =>
            exact hlt (j3 + 1) q (by omega) hq

theorem get_regIndex : ∀ fw : Framework, frameworkOrder.get? (regIndex fw) = some fw := by
  intro fw; cases fw <;> rfl

theorem regIndex_of_get : ∀ (i : Nat) (fw : Framework),
    frameworkOrder.get? i = some fw → regIndex fw = i := by
  intro i fw h
  have hlen : i < 7 := by
    by_contra hge
    rw [List.get?_eq_none.mpr (by simpa [frameworkOrder] using Nat.le_of_not_lt hge)] at h
    cases h
  interval_cases i <;> (cases h; rfl)

theorem decide_occurs_eq (w t : List Char) : decide (Occurs w t) = substringHit w t := by
  cases hh : substringHit w t
  · exact decide_eq_false (fun hocc => by
      rw [(substringHit_iff w t).mpr hocc] at hh
      cases hh)
  · exact decide_eq_true ((substringHit_iff w t).mp hh)

theorem scores_list_eq (ui : String) :
    (Framework.CODING, score Framework.CODING ui)
      :: [(Framework.TEACHING, score Framework.TEACHING ui),
          (Framework.EXPLANATION, score Framework.EXPLANATION ui),
          (Framework.RESEARCH, score Framework.RESEARCH ui),
          (Framework.CREATIVE, score Framework.CREATIVE ui),
          (Framework.STRATEGY, score Framework.STRATEGY ui),
          (Framework.CONTENT, score Framework.CONTENT ui)]
      = frameworkOrder.map (fun fw => (fw, score fw ui)) := rfl

theorem classify_parts (ui : String) (fw0 : Framework) (h0 : 0 < score fw0 ui) :
    (classify ui).1 = (bestPair ui).1
    ∧ (classify ui).2.1 = min (((bestPair ui).2 : ℚ) / 5) 1
    ∧ (classify ui).2.2 = "Classified as " ++ (getSpec (bestPair ui).1).name := by
  have hnall : ¬ (frameworkOrder.map (fun fw => (fw, score fw ui))).all
      (fun p => p.2 == 0) = true := by
    intro hcontra
    rw [List.all_eq_true] at hcontra
    have hz := hcontra (fw0, score fw0 ui)
      (List.mem_map.mpr ⟨fw0, mem_frameworkOrder fw0, rfl⟩)
    simp only [beq_iff_eq] at hz
    omega
  have hcls : classify ui = ((bestPair ui).1, min (((bestPair ui).2 : ℚ) / 5) 1,
      "Classified as " ++ (getSpec (bestPair ui).1).name) := by
    unfold classify
    rw [if_neg hnall]
    rfl
  rw [hcls]
  exact ⟨rfl, rfl, rfl⟩

theorem bestPair_mem (ui : String) :
    bestPair ui ∈ frameworkOrder.map (fun fw => (fw, score fw ui)) := by
  rw [← scores_list_eq ui]
  exact argmaxFirst_mem _ _

theorem bestPair_snd (ui : String) : (bestPair ui).2 = score (bestPair ui).1 ui := by
  obtain ⟨fw, _, heq⟩ := List.mem_map.mp (bestPair_mem ui)
  rw [← heq]

theorem bestPair_ge (ui : String) (fw : Framework) :
    score fw ui ≤ (bestPair ui).2 := by
  have hmem : (fw, score fw ui) ∈ frameworkOrder.map (fun f2 => (f2, score f2 ui)) :=
    List.mem_map.mpr ⟨fw, mem_frameworkOrder fw, rfl⟩
  rw [← scores_list_eq ui] at hmem
  exact argmaxFirst_ge _ _ (fw, score fw ui) hmem

theorem bestPair_earliest (ui : String) (f2 : Framework)
    (hlt2 : regIndex f2 < regIndex (bestPair ui).1) :
    score f2 ui < (bestPair ui).2 := by
  obtain ⟨i, hi, hfirst⟩ := argmaxFirst_first
    [(Framework.TEACHING, score Framework.TEACHING ui),
     (Framework.EXPLANATION, score Framework.EXPLANATION ui),
     (Framework.RESEARCH, score Framework.RESEARCH ui),
     (Framework.CREATIVE, score Framework.CREATIVE ui),
     (Framework.STRATEGY, score Framework.STRATEGY ui),
     (Framework.CONTENT, score Framework.CONTENT ui)]
    (Framework.CODING, score Framework.CODING ui)
  rw [scores_list_eq ui] at hi
  rw [List.get?_map] at hi
  cases hfo : frameworkOrder.get? i with
  | none => rw [hfo] at hi; cases hi
  | some fwi =>
    rw [hfo] at hi
    simp only [Option.map_some'] at hi
    have hbp : bestPair ui = (fwi, score fwi ui) := by
      injection hi with h2
      exact h2.symm
    have hidx : regIndex fwi = i := regIndex_of_get i fwi hfo
    have hlt3 : regIndex f2 < i := by
      rw [hbp] at hlt2
      simpa [hidx] using hlt2
    have hj : ((Framework.CODING, score Framework.CODING ui)
        :: [(Framework.TEACHING, score Framework.TEACHING ui),
            (Framework.EXPLANATION, score Framework.EXPLANATION ui),
            (Framework.RESEARCH, score Framework.RESEARCH ui),
            (Framework.CREATIVE, score Framework.CREATIVE ui),
            (Framework.STRATEGY, score Framework.STRATEGY ui),
            (Framework.CONTENT, score Framework.CONTENT ui)]).get? (regIndex f2)
        = some (f2, score f2 ui) := by
      rw [scores_list_eq ui, List.get?_map, get_regIndex]
      rfl
    exact hfirst (regIndex f2) (f2, score f2 ui) hlt3 hj

/-- C7 counterexample: on input "code" the classifier returns confidence
1/5 (flat division of the raw score by 5), not the claimed
max-possible-score normalization, which would give 1/15 for the coding
framework and its 15 trigger keywords. -/
theorem C7_counterexample :
    (classify "code").1 = Framework.CODING
    ∧ (classify "code").2.1 = 1/5
    ∧ claimedNormalizedConfidence Framework.CODING "code" = 1/15
    ∧ (1/5 : ℚ) ≠ 1/15 := by
  refine ⟨rfl, ?_, ?_, by norm_num⟩
  · have h : (classify "code").2.1 = min (((1 : ℕ) : ℚ) / 5) 1 := rfl
    rw [h]
    norm_num
  · have h1 : score Framework.CODING "code" = 1 := by decide
    have h2 : (getSpec Framework.CODING).triggers.length = 15 := by decide
    unfold claimedNormalizedConfidence
    rw [h1, h2]
    norm_num

/-- C7 amended: each framework's score is the number of its trigger
keywords occurring as case-insensitive substrings of the lowercased input
(no regex patterns, no weights), and whenever any framework scores nonzero
the returned confidence is min(score/5, 1.0) for the winning framework. -/
theorem C7_flat_confidence :
    (∀ (ui : String) (fw : Framework),
      score fw ui
        = (getSpec fw).triggers.countP
            (fun t => decide (Occurs t.data (pyLower ui).data)))
    ∧ ∀ (ui : String) (fw0 : Framework), 0 < score fw0 ui →
      (classify ui).2.1 = min ((score (classify ui).1 ui : ℚ) / 5) 1 := by
  constructor
  · intro ui fw
    have hfun : (fun t : String => decide (Occurs t.data (pyLower ui).data))
        = (fun t : String => substringHit t.data (pyLower ui).data) :=
      funext fun t => decide_occurs_eq _ _
    rw [List.countP_eq_length_filter, hfun]
    rfl
  · intro ui fw0 h0
    obtain ⟨h1, h2, _⟩ := classify_parts ui fw0 h0
    rw [h2, h1, ← bestPair_snd]

/-- Witness for C7 at the concrete input "code". -/
theorem C7_witness :
    score Framework.CODING "code"
      = (getSpec Framework.CODING).triggers.countP
          (fun t => decide (Occurs t.data (pyLower "code").data))
    ∧ (classify "code").2.1 = min ((score (classify "code").1 "code" : ℚ) / 5) 1 := by
  exact ⟨C7_flat_confidence.1 "code" Framework.CODING,
    C7_flat_confidence.2 "code" Framework.CODING (by decide)⟩

/-- C8: when no framework trigger matches, `classify` returns the coding
framework at confidence exactly 0.5 with reasoning "Default classification";
otherwise the highest-scoring framework wins, ties resolving to the
framework earliest in registry declaration order. -/
theorem C8_default_and_tiebreak (ui : String) :
    ((∀ fw, score fw ui = 0) →
      classify ui = (Framework.CODING, 1/2, "Default classification"))
    ∧ (∀ fw0, 0 < score fw0 ui →
      (∀ f2, score f2 ui ≤ score (classify ui).1 ui)
      ∧ (∀ f2, regIndex f2 < regIndex (classify ui).1 →
          score f2 ui < score (classify ui).1 ui)) := by
  constructor
  · intro hall
    have hcond : (frameworkOrder.map (fun fw => (fw, score fw ui))).all
        (fun p => p.2 == 0) = true := by
      rw [List.all_eq_true]
      rintro ⟨fw, sc⟩ hmem
      rw [List.mem_map] at hmem
      obtain ⟨fw2, _, heq⟩ := hmem
      cases heq
      simp [hall]
    unfold classify
    rw [if_pos hcond]
  · intro fw0 h0
    obtain ⟨h1, _, _⟩ := classify_parts ui fw0 h0
    constructor
    · intro f2
      rw [h1, ← bestPair_snd]
      exact bestPair_ge ui f2
    · intro f2 hlt2
      rw [h1, ← bestPair_snd]
      exact bestPair_earliest ui f2 (by rwa [h1] at hlt2)

/-- Witness for C8: the claim's own no-trigger example defaults, and a
coding input wins. -/
theorem C8_witness :
    classify "zzz999 no keywords at all"
        = (Framework.CODING, 1/2, "Default classification")
    ∧ score Framework.TEACHING "build a todo app"
        ≤ score (classify "build a todo app").1 "build a todo app" := by
  constructor
  · exact (C8_default_and_tiebreak "zzz999 no keywords at all").1
      (fun fw => by cases fw <;> decide)
  · exact ((C8_default_and_tiebreak "build a todo app").2 Framework.CODING
      (by decide)).1 Framework.TEACHING

/-- C10: `get_framework` never raises — it returns `none` exactly for
strings that are not one of the seven framework id values, and the detail
record for each valid id. -/
theorem C10_get_framework (s : String) :
    (get_framework s = none ↔ ∀ fw : Framework, fw.value ≠ s)
    ∧ ∀ fw : Framework, s = fw.value →
        get_framework s = some
          { id := fw.value
            name := (getSpec fw).name
            description := (getSpec fw).description
            ideal_for := (getSpec fw).ideal_for
            trigger_keywords := (getSpec fw).triggers
            example_inputs := (getSpec fw).triggers.take 5
            role_personas := (getSpec fw).targets } := by
  constructor
  · unfold get_framework frameworkOfId
    rw [Option.map_eq_none', List.find?_eq_none]
    constructor
    · intro h fw heq
      exact h fw (mem_frameworkOrder fw) (by simp [heq])
    · intro h fw _ hpred
      exact h fw (by simpa using hpred)
  · intro fw heq
    subst heq
    cases fw <;> rfl

/-- Witness for C10: a valid id and an invalid id. -/
theorem C10_witness :
    get_framework "coding_technical" = some
      { id := "coding_technical"
        name := "Coding & Development"
        description := "Architecture clarity, deterministic behavior, production-grade systems"
        ideal_for := ["Code generation", "System design", "Debugging", "API development"]
        trigger_keywords := ["code", "build", "implement", "function", "api", "debug",
          "fix", "create", "develop", "program", "script", "database", "backend",
          "frontend", "app"]
        example_inputs := ["code", "build", "implement", "function", "api"]
        role_personas := ["Senior Software Engineer", "Production-grade", "No prototypes"] }
    ∧ get_framework "bogus" = none := by
  constructor
  · have h := (C10_get_framework "coding_technical").2 Framework.CODING rfl
    rw [h]
    rfl
  · exact (C10_get_framework "bogus").1.mpr (fun fw => by cases fw <;> decide)
